import Mathlib

/-!
Shallow embedding of the `PhysicsSimulation` class of this repository
(2D rigid-circle physics demo).  Numbers are idealised as real numbers;
`Math.sqrt` becomes `Real.sqrt`.  Randomised spawn parameters are passed
in explicitly (an injectable random source), matching the design notes.
-/

/-- A simulated circular body: mirrors the object literal built in
`addObjectAt` (`x`, `y`, `vx`, `vy`, `radius`, `mass`, `color`,
`restitution`, `friction`). -/
@[ext]
structure Body where
  x : ℝ
  y : ℝ
  vx : ℝ
  vy : ℝ
  radius : ℝ
  mass : ℝ
  color : String
  restitution : ℝ
  friction : ℝ

/-- The physics-relevant state of a `PhysicsSimulation` instance:
the body list `objects`, the gravity vector, the gravity flag, the canvas
bounds, and the displayed `objectCount`. -/
@[ext]
structure World where
  objects : List Body
  gravityX : ℝ
  gravityY : ℝ
  gravityEnabled : Bool
  width : ℝ
  height : ℝ
  objectCount : Nat

/-- Embeds `const dt = Math.min(deltaTime / 16.67, 2)` at the top of
`update`. -/
noncomputable def dtFactor (deltaTime : ℝ) : ℝ :=
  min (deltaTime / 16.67) 2

/-- The gravity and friction and position part of the per-body loop of
`update`: add gravity when enabled, multiply the velocity by `friction`,
then advance the position by `velocity * dt`. -/
noncomputable def integrateBody (w : World) (dt : ℝ) (obj : Body) : Body :=
  let obj :=
    if w.gravityEnabled then
      { obj with vx := obj.vx + w.gravityX * dt, vy := obj.vy + w.gravityY * dt }
    else obj
  let obj := { obj with vx := obj.vx * obj.friction, vy := obj.vy * obj.friction }
  { obj with x := obj.x + obj.vx * dt, y := obj.y + obj.vy * dt }

/-- The four boundary checks of the per-body loop of `update`, applied in
source order (left, right, top, bottom), each clamping the position and
reflecting the velocity scaled by `restitution`. -/
noncomputable def boundBody (w : World) (obj : Body) : Body :=
  let obj :=
    if obj.x - obj.radius < 0 then
      { obj with x := obj.radius, vx := -obj.vx * obj.restitution }
    else obj
  let obj :=
    if obj.x + obj.radius > w.width then
      { obj with x := w.width - obj.radius, vx := -obj.vx * obj.restitution }
    else obj
  let obj :=
    if obj.y - obj.radius < 0 then
      { obj with y := obj.radius, vy := -obj.vy * obj.restitution }
    else obj
  let obj :=
    if obj.y + obj.radius > w.height then
      { obj with y := w.height - obj.radius, vy := -obj.vy * obj.restitution }
    else obj
  obj

/-- Embeds `checkCollision(obj1, obj2)`: circle-overlap test, positional
correction split by mass share, then the impulse velocity response unless
the bodies are already separating.  Returns the updated pair. -/
noncomputable def checkCollision (obj1 obj2 : Body) : Body × Body :=
  let dx := obj2.x - obj1.x
  let dy := obj2.y - obj1.y
  let distance := Real.sqrt (dx * dx + dy * dy)
  let minDistance := obj1.radius + obj2.radius
  if distance < minDistance then
    let overlap := minDistance - distance
    let normalX := dx / distance
    let normalY := dy / distance
    let totalMass := obj1.mass + obj2.mass
    let move1 := overlap * (obj2.mass / totalMass)
    let move2 := overlap * (obj1.mass / totalMass)
    let obj1 := { obj1 with x := obj1.x - normalX * move1, y := obj1.y - normalY * move1 }
    let obj2 := { obj2 with x := obj2.x + normalX * move2, y := obj2.y + normalY * move2 }
    let relativeVx := obj2.vx - obj1.vx
    let relativeVy := obj2.vy - obj1.vy
    let relativeSpeed := relativeVx * normalX + relativeVy * normalY
    if relativeSpeed > 0 then (obj1, obj2)
    else
      let restitution := min obj1.restitution obj2.restitution
      let impulse := (1 + restitution) * relativeSpeed / totalMass
      let obj1 := { obj1 with
        vx := obj1.vx + impulse * obj2.mass * normalX,
        vy := obj1.vy + impulse * obj2.mass * normalY }
      let obj2 := { obj2 with
        vx := obj2.vx - impulse * obj1.mass * normalX,
        vy := obj2.vy - impulse * obj1.mass * normalY }
      (obj1, obj2)
  else (obj1, obj2)

/-- The index pairs visited by the nested collision loops of `update`:
`i` ascending over the collection, and for each `i`, `j` ascending over
`i+1 .. n-1`. -/
def pairList (n : Nat) : List (Nat × Nat) :=
  (List.range n).flatMap fun i => ((List.range n).filter fun j => i < j).map fun j => (i, j)

/-- One iteration of the nested collision loops: run `checkCollision` on
the bodies at indices `p.1` and `p.2` and store the updated pair back. -/
noncomputable def resolvePair (objs : List Body) (p : Nat × Nat) : List Body :=
  match objs[p.1]?, objs[p.2]? with
  | some o1, some o2 =>
      let r := checkCollision o1 o2
      (objs.set p.1 r.1).set p.2 r.2
  | _, _ => objs

/-- The object-to-object collision passes of `update`: all ascending index
pairs, in order, each resolved in place. -/
noncomputable def collisionPhase (objs : List Body) : List Body :=
  (pairList objs.length).foldl resolvePair objs

/-- Embeds `update(deltaTime)`: cap the timestep, run the fused per-body
loop (integration then boundary checks, which touch only that body), then
the pairwise collision loops. -/
noncomputable def update (w : World) (deltaTime : ℝ) : World :=
  let dt := dtFactor deltaTime
  let objs := w.objects.map fun obj => boundBody w (integrateBody w dt obj)
  { w with objects := collisionPhase objs }

/-- The spawn error signal named by the spec's error taxonomy. -/
inductive SpawnError where
  | capacityExceeded
deriving DecidableEq, Repr

/-- Embeds `addObjectAt(x, y)`.  The random draws (`Math.random()` values
for the radius, and the two velocity components) and the generated hsl
color string are injected as arguments.  The JavaScript function returns
`undefined` on every path (the capped spawn is silently dropped), embedded
here as a constantly-`none` `Option SpawnError` component. -/
noncomputable def addObjectAt (w : World) (x y rR rVx rVy : ℝ) (color : String) :
    World × Option SpawnError :=
  if 50 ≤ w.objects.length then (w, none)
  else
    let radius := rR * 15 + 10
    let mass := radius / 5
    let object : Body :=
      { x := x, y := y, vx := (rVx - 0.5) * 10, vy := (rVy - 0.5) * 10,
        radius := radius, mass := mass, color := color,
        restitution := 0.8, friction := 0.99 }
    let objs := w.objects ++ [object]
    ({ w with objects := objs, objectCount := objs.length }, none)

/-- Embeds `clearObjects()`: empty the collection and refresh the count. -/
def clearObjects (w : World) : World :=
  { w with objects := [], objectCount := 0 }

/-- Embeds `toggleGravity()`. -/
def toggleGravity (w : World) : World :=
  { w with gravityEnabled := !w.gravityEnabled }

/-- A public-API operation on the simulation. -/
inductive Op where
  | spawn (x y rR rVx rVy : ℝ) (color : String)
  | clear
  | togGravity
  | step (deltaTime : ℝ)

/-- Apply one public-API operation. -/
noncomputable def applyOp (w : World) : Op → World
  | .spawn x y rR rVx rVy c => (addObjectAt w x y rR rVx rVy c).1
  | .clear => clearObjects w
  | .togGravity => toggleGravity w
  | .step dt => update w dt

/-- The state built by the `PhysicsSimulation` constructor together with
`createCanvas`: no objects, gravity `(0, 0.5)` enabled, a 600x400 canvas. -/
def initWorld : World :=
  { objects := [], gravityX := 0, gravityY := 0.5, gravityEnabled := true,
    width := 600, height := 400, objectCount := 0 }

/-- The state reached from the initial state by a sequence of public-API
operations. -/
noncomputable def runOps (ops : List Op) : World :=
  ops.foldl applyOp initWorld

/-! ## Spec-side phase definitions (for the refinement claims) -/

/-- Modelled from the spec: Integrator stage 1, `velocity += gravity * dt_factor`
when `gravity_enabled`. -/
noncomputable def gravityStageSpec (w : World) (dt : ℝ) (b : Body) : Body :=
  if w.gravityEnabled then
    { b with vx := b.vx + w.gravityX * dt, vy := b.vy + w.gravityY * dt }
  else b

/-- Modelled from the spec: Integrator stage 2, `velocity *= friction`. -/
noncomputable def frictionStageSpec (b : Body) : Body :=
  { b with vx := b.vx * b.friction, vy := b.vy * b.friction }

/-- Modelled from the spec: Integrator stage 3, `position += velocity * dt_factor`. -/
noncomputable def positionStageSpec (dt : ℝ) (b : Body) : Body :=
  { b with x := b.x + b.vx * dt, y := b.y + b.vy * dt }

/-- Modelled from the spec: `step` as three separate passes — Integrator over
all bodies, then BoundaryResolver over all bodies, then CollisionResolver over
all ascending pairs. -/
noncomputable def stepPhasedSpec (w : World) (deltaTime : ℝ) : World :=
  let dt := dtFactor deltaTime
  let objs1 := w.objects.map (integrateBody w dt)
  let objs2 := objs1.map (boundBody w)
  { w with objects := collisionPhase objs2 }

/-! ## Shape preservation helpers -/

/-- The physics-immutable attributes of a body: radius, mass, restitution,
friction and color. -/
def bodyShape (b : Body) : ℝ × ℝ × ℝ × ℝ × String :=
  (b.radius, b.mass, b.restitution, b.friction, b.color)

lemma bodyShape_integrateBody (w : World) (dt : ℝ) (b : Body) :
    bodyShape (integrateBody w dt b) = bodyShape b := by
  simp only [integrateBody, bodyShape]
  split <;> rfl

lemma bodyShape_boundBody (w : World) (b : Body) :
    bodyShape (boundBody w b) = bodyShape b := by
  simp only [boundBody, bodyShape]
  split_ifs <;> rfl

lemma bodyShape_checkCollision (o1 o2 : Body) :
    bodyShape (checkCollision o1 o2).1 = bodyShape o1 ∧
    bodyShape (checkCollision o1 o2).2 = bodyShape o2 := by
  simp only [checkCollision, bodyShape]
  split_ifs <;> exact ⟨rfl, rfl⟩

lemma set_getElem?_self {α : Type} (l : List α) (i : Nat) (a : α)
    (h : l[i]? = some a) : l.set i a = l := by
  apply List.ext_getElem?
  intro k
  rw [List.getElem?_set]
  by_cases hik : i = k
  · subst hik
    have hi : i < l.length := by
      by_contra hn
      rw [List.getElem?_eq_none (Nat.le_of_not_lt hn)] at h
      exact Option.noConfusion h
    simp [hi, h.symm]
  · simp [hik]

lemma map_bodyShape_resolvePair (objs : List Body) (p : Nat × Nat) :
    (resolvePair objs p).map bodyShape = objs.map bodyShape := by
  unfold resolvePair
  cases h1 : objs[p.1]? with
  | none => rfl
  | some o1 =>
    cases h2 : objs[p.2]? with
    | none => rfl
    | some o2 =>
      have s1 := (bodyShape_checkCollision o1 o2).1
      have s2 := (bodyShape_checkCollision o1 o2).2
      have m1 : (objs.map bodyShape)[p.1]? = some (bodyShape o1) := by
        rw [List.getElem?_map, h1]; rfl
      have m2 : (objs.map bodyShape)[p.2]? = some (bodyShape o2) := by
        rw [List.getElem?_map, h2]; rfl
      simp only [List.map_set, s1, s2]
      rw [set_getElem?_self _ _ _ m1, set_getElem?_self _ _ _ m2]

lemma map_bodyShape_foldl (ps : List (Nat × Nat)) (objs : List Body) :
    (ps.foldl resolvePair objs).map bodyShape = objs.map bodyShape := by
  induction ps generalizing objs with
  | nil => rfl
  | cons p ps ih => rw [List.foldl_cons, ih, map_bodyShape_resolvePair]

lemma map_bodyShape_collisionPhase (objs : List Body) :
    (collisionPhase objs).map bodyShape = objs.map bodyShape := by
  unfold collisionPhase
  exact map_bodyShape_foldl _ _

lemma map_bodyShape_update (w : World) (t : ℝ) :
    (update w t).objects.map bodyShape = w.objects.map bodyShape := by
  simp only [update]
  rw [map_bodyShape_collisionPhase, List.map_map]
  apply List.map_congr_left
  intro b _
  show bodyShape (boundBody w (integrateBody w (dtFactor t) b)) = bodyShape b
  rw [bodyShape_boundBody, bodyShape_integrateBody]

lemma length_update (w : World) (t : ℝ) :
    (update w t).objects.length = w.objects.length := by
  have h := congrArg List.length (map_bodyShape_update w t)
  simpa using h

/-! ## Concrete sample states -/

/-- A sample body with the fixed spawn material parameters. -/
def bSample : Body :=
  { x := 50, y := 60, vx := 3, vy := 4, radius := 10, mass := 2, color := "c",
    restitution := 0.8, friction := 0.99 }

/-- A sample world with gravity disabled. -/
def wNoGravity : World :=
  { objects := [bSample], gravityX := 0, gravityY := 0.5, gravityEnabled := false,
    width := 600, height := 400, objectCount := 1 }

/-- A sample world already holding 50 bodies. -/
def w50 : World :=
  { objects := List.replicate 50 bSample, gravityX := 0, gravityY := 0.5,
    gravityEnabled := true, width := 600, height := 400, objectCount := 50 }

/-! ## Claim theorems -/

/-- C4: the integrator applies, in this order, gravity (only when enabled),
then friction damping (every step), then the position advance; in particular
with gravity disabled the post-integration velocity equals the pre-step
velocity times `friction`. -/
theorem C4_integration_order (w : World) (dt : ℝ) (b : Body) :
    integrateBody w dt b = positionStageSpec dt (frictionStageSpec (gravityStageSpec w dt b)) ∧
    (w.gravityEnabled = false →
      (integrateBody w dt b).vx = b.vx * b.friction ∧
      (integrateBody w dt b).vy = b.vy * b.friction) := by
  constructor
  · simp only [integrateBody, positionStageSpec, frictionStageSpec, gravityStageSpec]
  · intro h
    simp [integrateBody, h]

/-- C4 witness: with gravity disabled in the sample world, one integration
step multiplies the sample body's velocity by its friction factor. -/
theorem C4_integration_order_witness :
    (integrateBody wNoGravity 1 bSample).vx = bSample.vx * bSample.friction ∧
    (integrateBody wNoGravity 1 bSample).vy = bSample.vy * bSample.friction :=
  (C4_integration_order wNoGravity 1 bSample).2 rfl

/-- C5 counterexample: at elapsed time `-16.67` the code's timestep factor is
`-1`, which differs from `clamp(elapsed/16.67, 0, 2) = 0` and is negative, so
the factor is not the claimed clamp and can be negative. -/
theorem C5_counterexample :
    dtFactor (-16.67) = -1 ∧
    dtFactor (-16.67) ≠ max 0 (min ((-16.67) / 16.67) 2) ∧
    dtFactor (-16.67) < 0 := by
  have h : (-16.67 : ℝ) / 16.67 = -1 := by norm_num
  have hd : dtFactor (-16.67) = -1 := by
    rw [dtFactor, h]
    exact min_eq_left (by norm_num)
  refine ⟨hd, ?_, by rw [hd]; norm_num⟩
  rw [hd, h]
  rw [min_eq_left (by norm_num : (-1:ℝ) ≤ 2), max_eq_left (by norm_num : (-1:ℝ) ≤ 0)]
  norm_num

/-- C5 amended: the timestep factor is `min(elapsed/16.67, 2)`; it never
exceeds 2, and for every nonnegative elapsed time it equals
`clamp(elapsed/16.67, 0, 2)` and is nonnegative. -/
theorem C5_amended_dtFactor (t : ℝ) :
    dtFactor t ≤ 2 ∧
    (0 ≤ t → dtFactor t = max 0 (min (t / 16.67) 2) ∧ 0 ≤ dtFactor t) := by
  rw [dtFactor]
  refine ⟨min_le_right _ _, fun ht => ?_⟩
  have h0 : (0:ℝ) ≤ t / 16.67 := by positivity
  have h1 : (0:ℝ) ≤ min (t / 16.67) 2 := le_min h0 (by norm_num)
  exact ⟨(max_eq_right h1).symm, h1⟩

/-- C5 amended witness: at elapsed time 1 the factor is at most 2 and
nonnegative. -/
theorem C5_amended_dtFactor_witness : dtFactor 1 ≤ 2 ∧ 0 ≤ dtFactor 1 :=
  ⟨(C5_amended_dtFactor 1).1, ((C5_amended_dtFactor 1).2 (by norm_num)).2⟩

/-- C8: a `step` equals the phased pipeline — Integrator over all bodies, then
BoundaryResolver over all bodies, then CollisionResolver over all ascending
pairs — so the fused per-body loop is observably never interleaved. -/
theorem C8_phase_order (w : World) (t : ℝ) : update w t = stepPhasedSpec w t := by
  simp only [update, stepPhasedSpec, List.map_map, Function.comp_def]

/-- C10: `step` changes only positions and velocities: the body count and each
body's radius, mass, restitution, friction and color are preserved, as are the
gravity vector, the gravity flag, the canvas bounds and the displayed count. -/
theorem C10_frame_effect (w : World) (t : ℝ) :
    (update w t).objects.length = w.objects.length ∧
    (update w t).objects.map bodyShape = w.objects.map bodyShape ∧
    (update w t).gravityX = w.gravityX ∧
    (update w t).gravityY = w.gravityY ∧
    (update w t).gravityEnabled = w.gravityEnabled ∧
    (update w t).width = w.width ∧
    (update w t).height = w.height ∧
    (update w t).objectCount = w.objectCount :=
  ⟨length_update w t, map_bodyShape_update w t, rfl, rfl, rfl, rfl, rfl, rfl⟩

lemma length_applyOp_le (w : World) (o : Op) (h : w.objects.length ≤ 50) :
    (applyOp w o).objects.length ≤ 50 := by
  cases o with
  | spawn x y a b c d =>
    simp only [applyOp, addObjectAt]
    split
    · exact h
    · rename_i hn
      simp only [List.length_append, List.length_cons, List.length_nil]
      omega
  | clear => simp [applyOp, clearObjects]
  | togGravity => simpa [applyOp, toggleGravity] using h
  | step dt =>
    show (update w dt).objects.length ≤ 50
    rw [length_update]; exact h

lemma length_foldl_le (ops : List Op) (w : World) (h : w.objects.length ≤ 50) :
    (ops.foldl applyOp w).objects.length ≤ 50 := by
  induction ops generalizing w with
  | nil => exact h
  | cons o ops ih => exact ih _ (length_applyOp_le w o h)

/-- C6 counterexample: with 50 bodies present, `addObjectAt` does not return a
`CapacityExceeded` signal — the JavaScript function returns `undefined` on
every path, so the capped spawn is silently dropped. -/
theorem C6_counterexample :
    (addObjectAt w50 40 40 0 0.5 0.5 "c").2 ≠ some SpawnError.capacityExceeded := by
  have h : (addObjectAt w50 40 40 0 0.5 0.5 "c").2 = none := by
    rw [addObjectAt, if_pos]
    simp [w50]
  rw [h]
  exact fun hc => Option.noConfusion hc

/-- C6 amended: at the 50-body cap a spawn request is silently ignored — the
whole state is unchanged and no error value is returned — and the body count
never exceeds 50 in any state reachable through the public API. -/
theorem C6_capacity (w : World) (x y rR rVx rVy : ℝ) (c : String)
    (h : 50 ≤ w.objects.length) :
    addObjectAt w x y rR rVx rVy c = (w, none) ∧
    ∀ ops : List Op, (runOps ops).objects.length ≤ 50 := by
  constructor
  · rw [addObjectAt, if_pos h]
  · intro ops
    exact length_foldl_le ops initWorld (by simp [initWorld])

/-- C6 witness: the 51st spawn into the 50-body sample world leaves the world
unchanged with no returned signal, and the empty operation sequence respects
the cap. -/
theorem C6_capacity_witness :
    addObjectAt w50 40 40 0 0.5 0.5 "c" = (w50, none) ∧
    ∀ ops : List Op, (runOps ops).objects.length ≤ 50 :=
  C6_capacity w50 40 40 0 0.5 0.5 "c" (by simp [w50])

/-! ## Collision-pair quantities (the named quantities of the resolution
algorithm: distance, unit normal, relative normal speed, impulse) -/

/-- The center distance `Math.sqrt(dx*dx + dy*dy)` used by `checkCollision`. -/
noncomputable def centerDist (o1 o2 : Body) : ℝ :=
  Real.sqrt ((o2.x - o1.x) * (o2.x - o1.x) + (o2.y - o1.y) * (o2.y - o1.y))

/-- The x component of the collision normal `(center_j - center_i) / distance`. -/
noncomputable def normX (o1 o2 : Body) : ℝ := (o2.x - o1.x) / centerDist o1 o2

/-- The y component of the collision normal. -/
noncomputable def normY (o1 o2 : Body) : ℝ := (o2.y - o1.y) / centerDist o1 o2

/-- The relative velocity along the normal, `dot(v_j - v_i, normal)`. -/
noncomputable def relSpeed (o1 o2 : Body) : ℝ :=
  (o2.vx - o1.vx) * normX o1 o2 + (o2.vy - o1.vy) * normY o1 o2

/-- The impulse scalar `(1 + restitution) * rel / (mass_i + mass_j)` with the
combined restitution `min(restitution_i, restitution_j)`. -/
noncomputable def impulseScalar (o1 o2 : Body) : ℝ :=
  (1 + min o1.restitution o2.restitution) * relSpeed o1 o2 / (o1.mass + o2.mass)

lemma checkCollision_vel_sep (o1 o2 : Body)
    (hover : centerDist o1 o2 < o1.radius + o2.radius)
    (hrel : 0 < relSpeed o1 o2) :
    (checkCollision o1 o2).1.vx = o1.vx ∧ (checkCollision o1 o2).1.vy = o1.vy ∧
    (checkCollision o1 o2).2.vx = o2.vx ∧ (checkCollision o1 o2).2.vy = o2.vy := by
  simp only [centerDist] at hover
  simp only [relSpeed, normX, normY, centerDist] at hrel
  simp only [checkCollision, if_pos hover]
  rw [if_pos (by exact hrel)]
  exact ⟨rfl, rfl, rfl, rfl⟩

lemma checkCollision_vel (o1 o2 : Body)
    (hover : centerDist o1 o2 < o1.radius + o2.radius)
    (hrel : relSpeed o1 o2 ≤ 0) :
    (checkCollision o1 o2).1.vx = o1.vx + impulseScalar o1 o2 * o2.mass * normX o1 o2 ∧
    (checkCollision o1 o2).1.vy = o1.vy + impulseScalar o1 o2 * o2.mass * normY o1 o2 ∧
    (checkCollision o1 o2).2.vx = o2.vx - impulseScalar o1 o2 * o1.mass * normX o1 o2 ∧
    (checkCollision o1 o2).2.vy = o2.vy - impulseScalar o1 o2 * o1.mass * normY o1 o2 := by
  have hover' := hover
  have hrel' := hrel
  simp only [centerDist] at hover'
  simp only [relSpeed, normX, normY, centerDist] at hrel'
  simp only [checkCollision, if_pos hover']
  rw [if_neg (by exact not_lt.mpr hrel')]
  refine ⟨?_, ?_, ?_, ?_⟩ <;>
    simp only [impulseScalar, relSpeed, normX, normY, centerDist]

/-- C3: for an overlapping pair, if the relative normal speed is positive the
collision resolver leaves all four velocity components unchanged; otherwise it
applies exactly the impulse formula with the combined (minimum) restitution,
and the tangential velocity components are unchanged. -/
theorem C3_impulse_formula (o1 o2 : Body)
    (hover : centerDist o1 o2 < o1.radius + o2.radius) :
    (0 < relSpeed o1 o2 →
      (checkCollision o1 o2).1.vx = o1.vx ∧ (checkCollision o1 o2).1.vy = o1.vy ∧
      (checkCollision o1 o2).2.vx = o2.vx ∧ (checkCollision o1 o2).2.vy = o2.vy) ∧
    (relSpeed o1 o2 ≤ 0 →
      (checkCollision o1 o2).1.vx = o1.vx + impulseScalar o1 o2 * o2.mass * normX o1 o2 ∧
      (checkCollision o1 o2).1.vy = o1.vy + impulseScalar o1 o2 * o2.mass * normY o1 o2 ∧
      (checkCollision o1 o2).2.vx = o2.vx - impulseScalar o1 o2 * o1.mass * normX o1 o2 ∧
      (checkCollision o1 o2).2.vy = o2.vy - impulseScalar o1 o2 * o1.mass * normY o1 o2 ∧
      (checkCollision o1 o2).1.vx * (-(normY o1 o2)) + (checkCollision o1 o2).1.vy * normX o1 o2 =
        o1.vx * (-(normY o1 o2)) + o1.vy * normX o1 o2 ∧
      (checkCollision o1 o2).2.vx * (-(normY o1 o2)) + (checkCollision o1 o2).2.vy * normX o1 o2 =
        o2.vx * (-(normY o1 o2)) + o2.vy * normX o1 o2) := by
  refine ⟨fun hrel => checkCollision_vel_sep o1 o2 hover hrel, fun hrel => ?_⟩
  obtain ⟨h1, h2, h3, h4⟩ := checkCollision_vel o1 o2 hover hrel
  refine ⟨h1, h2, h3, h4, ?_, ?_⟩
  · rw [h1, h2]; ring
  · rw [h3, h4]; ring

lemma normSq (o1 o2 : Body) (hd : 0 < centerDist o1 o2) :
    normX o1 o2 * normX o1 o2 + normY o1 o2 * normY o1 o2 = 1 := by
  have hs : centerDist o1 o2 * centerDist o1 o2 =
      (o2.x - o1.x) * (o2.x - o1.x) + (o2.y - o1.y) * (o2.y - o1.y) :=
    Real.mul_self_sqrt (add_nonneg (mul_self_nonneg _) (mul_self_nonneg _))
  have hd0 : centerDist o1 o2 ≠ 0 := ne_of_gt hd
  rw [normX, normY]
  field_simp
  linear_combination -hs

/-- C7: for an overlapping pair with positive masses, combined restitution in
`[0,1]`, positive center distance and approaching relative velocity, the
post-collision relative speed along the normal is at most the combined
restitution times the pre-collision relative speed along the normal. -/
theorem C7_energy_bound (o1 o2 : Body)
    (hm1 : 0 < o1.mass) (hm2 : 0 < o2.mass)
    (hr0 : 0 ≤ min o1.restitution o2.restitution)
    (hr1 : min o1.restitution o2.restitution ≤ 1)
    (hd : 0 < centerDist o1 o2)
    (hover : centerDist o1 o2 < o1.radius + o2.radius)
    (hrel : relSpeed o1 o2 ≤ 0) :
    |((checkCollision o1 o2).2.vx - (checkCollision o1 o2).1.vx) * normX o1 o2 +
     ((checkCollision o1 o2).2.vy - (checkCollision o1 o2).1.vy) * normY o1 o2| ≤
      min o1.restitution o2.restitution * |relSpeed o1 o2| := by
  obtain ⟨h1, h2, h3, h4⟩ := checkCollision_vel o1 o2 hover hrel
  have hM : o1.mass + o2.mass ≠ 0 := ne_of_gt (add_pos hm1 hm2)
  have hj : impulseScalar o1 o2 * (o1.mass + o2.mass) =
      (1 + min o1.restitution o2.restitution) * relSpeed o1 o2 := by
    rw [impulseScalar]
    field_simp
  have hrelDef : relSpeed o1 o2 =
      (o2.vx - o1.vx) * normX o1 o2 + (o2.vy - o1.vy) * normY o1 o2 := rfl
  have hnorm := normSq o1 o2 hd
  have key : ((checkCollision o1 o2).2.vx - (checkCollision o1 o2).1.vx) * normX o1 o2 +
      ((checkCollision o1 o2).2.vy - (checkCollision o1 o2).1.vy) * normY o1 o2 =
      -(min o1.restitution o2.restitution * relSpeed o1 o2) := by
    rw [h1, h2, h3, h4]
    have expand : (o2.vx - impulseScalar o1 o2 * o1.mass * normX o1 o2 -
        (o1.vx + impulseScalar o1 o2 * o2.mass * normX o1 o2)) * normX o1 o2 +
        (o2.vy - impulseScalar o1 o2 * o1.mass * normY o1 o2 -
        (o1.vy + impulseScalar o1 o2 * o2.mass * normY o1 o2)) * normY o1 o2 =
        ((o2.vx - o1.vx) * normX o1 o2 + (o2.vy - o1.vy) * normY o1 o2) -
          impulseScalar o1 o2 * (o1.mass + o2.mass) *
            (normX o1 o2 * normX o1 o2 + normY o1 o2 * normY o1 o2) := by
      ring
    rw [expand, hnorm, mul_one, ← hrelDef, hj]
    ring
  rw [key, abs_neg, abs_mul, abs_of_nonneg hr0]

/-! ## The two-body scenario of the spec's final testable property -/

/-- The left body of the scenario: radius 10, mass 2, center `(40, 50)`,
velocity `(2, 0)`. -/
def bL : Body :=
  { x := 40, y := 50, vx := 2, vy := 0, radius := 10, mass := 2, color := "c",
    restitution := 0.8, friction := 0.99 }

/-- The right body of the scenario: radius 10, mass 2, center `(58, 50)`,
velocity `(-2, 0)`. -/
def bR : Body :=
  { x := 58, y := 50, vx := -2, vy := 0, radius := 10, mass := 2, color := "c",
    restitution := 0.8, friction := 0.99 }

lemma sqrt_eval_18 :
    Real.sqrt (((58:ℝ) - 40) * ((58:ℝ) - 40) + ((50:ℝ) - 50) * ((50:ℝ) - 50)) = 18 := by
  rw [show ((58:ℝ) - 40) * ((58:ℝ) - 40) + ((50:ℝ) - 50) * ((50:ℝ) - 50) = 18 ^ 2 by norm_num]
  rw [Real.sqrt_sq (by norm_num : (0:ℝ) ≤ 18)]

lemma centerDist_bLbR : centerDist bL bR = 18 := by
  rw [centerDist]
  simp only [bL, bR]
  exact sqrt_eval_18

lemma normX_bLbR : normX bL bR = 1 := by
  rw [normX, centerDist_bLbR]
  simp only [bL, bR]
  norm_num

lemma normY_bLbR : normY bL bR = 0 := by
  rw [normY, centerDist_bLbR]
  simp only [bL, bR]
  norm_num

lemma relSpeed_bLbR : relSpeed bL bR = -4 := by
  rw [relSpeed, normX_bLbR, normY_bLbR]
  simp only [bL, bR]
  norm_num

lemma checkCollision_bLbR : checkCollision bL bR =
    ({ bL with x := 39, vx := -1.6 }, { bR with x := 59, vx := 1.6 }) := by
  simp only [checkCollision, bL, bR]
  rw [sqrt_eval_18]
  norm_num

/-- C3 witness: the scenario pair overlaps with approaching relative velocity,
and the resolver output matches the impulse formula there. -/
theorem C3_impulse_formula_witness :
    centerDist bL bR < bL.radius + bR.radius ∧ relSpeed bL bR ≤ 0 ∧
    ((checkCollision bL bR).1.vx = bL.vx + impulseScalar bL bR * bR.mass * normX bL bR ∧
     (checkCollision bL bR).1.vy = bL.vy + impulseScalar bL bR * bR.mass * normY bL bR ∧
     (checkCollision bL bR).2.vx = bR.vx - impulseScalar bL bR * bL.mass * normX bL bR ∧
     (checkCollision bL bR).2.vy = bR.vy - impulseScalar bL bR * bL.mass * normY bL bR ∧
     (checkCollision bL bR).1.vx * (-(normY bL bR)) + (checkCollision bL bR).1.vy * normX bL bR =
       bL.vx * (-(normY bL bR)) + bL.vy * normX bL bR ∧
     (checkCollision bL bR).2.vx * (-(normY bL bR)) + (checkCollision bL bR).2.vy * normX bL bR =
       bR.vx * (-(normY bL bR)) + bR.vy * normX bL bR) := by
  have hover : centerDist bL bR < bL.radius + bR.radius := by
    rw [centerDist_bLbR]
    simp only [bL, bR]
    norm_num
  have hrel : relSpeed bL bR ≤ 0 := by rw [relSpeed_bLbR]; norm_num
  exact ⟨hover, hrel, (C3_impulse_formula bL bR hover).2 hrel⟩

/-- C7 witness: on the scenario pair the post-collision relative normal speed
is bounded by the combined restitution times the pre-collision one. -/
theorem C7_energy_bound_witness :
    |((checkCollision bL bR).2.vx - (checkCollision bL bR).1.vx) * normX bL bR +
     ((checkCollision bL bR).2.vy - (checkCollision bL bR).1.vy) * normY bL bR| ≤
      min bL.restitution bR.restitution * |relSpeed bL bR| := by
  have hover : centerDist bL bR < bL.radius + bR.radius := by
    rw [centerDist_bLbR]
    simp only [bL, bR]
    norm_num
  have hrel : relSpeed bL bR ≤ 0 := by rw [relSpeed_bLbR]; norm_num
  have hd : 0 < centerDist bL bR := by rw [centerDist_bLbR]; norm_num
  exact C7_energy_bound bL bR (by simp only [bL]; norm_num) (by simp only [bR]; norm_num)
    (by simp only [bL, bR]; norm_num) (by simp only [bL, bR]; norm_num) hd hover hrel

/-- C9 counterexample: on the scenario pair one resolution pass moves the left
center to 39 and the right center to 59 — a 1-unit push each, not the claimed
4 units (`40 - 4 = 36`, `58 + 4 = 62`). -/
theorem C9_counterexample :
    (checkCollision bL bR).1.x = 39 ∧ (checkCollision bL bR).2.x = 59 ∧
    (checkCollision bL bR).1.x ≠ bL.x - 4 ∧ (checkCollision bL bR).2.x ≠ bR.x + 4 := by
  rw [checkCollision_bLbR]
  simp only [bL, bR]
  norm_num

/-- C9 amended: the scenario pair has a 2-unit overlap (centers 18 apart,
radii sum 20), so one resolution pass pushes each center apart by 1 unit along
x (equal mass ⇒ equal share) and flips each velocity's x-sign scaled by the
combined restitution 0.8, giving velocities `-1.6` and `1.6`. -/
theorem C9_scenario : checkCollision bL bR =
    ({ bL with x := bL.x - 1, vx := -(0.8 * 2) }, { bR with x := bR.x + 1, vx := 0.8 * 2 }) := by
  rw [checkCollision_bLbR]
  simp only [bL, bR]
  norm_num

/-! ## C1 and C2 concrete evaluations -/

/-- A degenerate body at `(40, 50)`. -/
def bD1 : Body :=
  { x := 40, y := 50, vx := 3, vy := -1, radius := 10, mass := 2, color := "c",
    restitution := 0.8, friction := 0.99 }

/-- A second body exactly coincident with `bD1`. -/
def bD2 : Body :=
  { x := 40, y := 50, vx := -5, vy := 2, radius := 10, mass := 2, color := "c",
    restitution := 0.8, friction := 0.99 }

theorem C2_degenerate_eval :
    centerDist bD1 bD2 = 0 ∧ centerDist bD1 bD2 < bD1.radius + bD2.radius ∧
    checkCollision bD1 bD2 = (bD1, bD2) := by
  have hd : centerDist bD1 bD2 = 0 := by
    rw [centerDist]
    simp only [bD1, bD2]
    norm_num
  refine ⟨hd, by rw [hd]; simp only [bD1, bD2]; norm_num, ?_⟩
  simp only [checkCollision, bD1, bD2]
  norm_num

def bA : Body :=
  { x := 10, y := 50, vx := 0, vy := 0, radius := 10, mass := 2, color := "c",
    restitution := 0.8, friction := 0.99 }

def bB : Body :=
  { x := 25, y := 50, vx := 0, vy := 0, radius := 10, mass := 2, color := "c",
    restitution := 0.8, friction := 0.99 }

def wC1 : World :=
  { objects := [bA, bB], gravityX := 0, gravityY := 0.5, gravityEnabled := false,
    width := 600, height := 400, objectCount := 2 }

def opsC1 : List Op :=
  [Op.togGravity, Op.spawn 10 50 0 0.5 0.5 "c", Op.spawn 25 50 0 0.5 0.5 "c"]

lemma runOps_opsC1 : runOps opsC1 = wC1 := by
  rw [runOps, opsC1]
  simp only [List.foldl_cons, List.foldl_nil, applyOp]
  simp [addObjectAt, toggleGravity, initWorld, wC1, bA, bB]
  norm_num

lemma sqrt_eval_15 :
    Real.sqrt (((25:ℝ) - 10) * ((25:ℝ) - 10) + ((50:ℝ) - 50) * ((50:ℝ) - 50)) = 15 := by
  rw [show ((25:ℝ) - 10) * ((25:ℝ) - 10) + ((50:ℝ) - 50) * ((50:ℝ) - 50) = 15 ^ 2 by norm_num]
  rw [Real.sqrt_sq (by norm_num : (0:ℝ) ≤ 15)]

lemma ccAB : checkCollision bA bB = ({ bA with x := 7.5 }, { bB with x := 27.5 }) := by
  simp only [checkCollision, bA, bB]
  rw [sqrt_eval_15]
  norm_num

lemma ib_bA : boundBody wC1 (integrateBody wC1 0 bA) = bA := by
  simp only [integrateBody, boundBody, wC1, bA]
  norm_num

lemma ib_bB : boundBody wC1 (integrateBody wC1 0 bB) = bB := by
  simp only [integrateBody, boundBody, wC1, bB]
  norm_num

lemma cp_AB : collisionPhase [bA, bB] = [{ bA with x := 7.5 }, { bB with x := 27.5 }] := by
  rw [collisionPhase]
  have hp : pairList ([bA, bB].length) = [(0, 1)] := by decide
  rw [hp]
  simp only [List.foldl_cons, List.foldl_nil, resolvePair]
  simp [ccAB]

lemma update_wC1 :
    update wC1 0 = { wC1 with objects := [{ bA with x := 7.5 }, { bB with x := 27.5 }] } := by
  have hdt : dtFactor 0 = 0 := by rw [dtFactor]; norm_num
  simp only [update, hdt]
  have hobjs : wC1.objects = [bA, bB] := rfl
  rw [hobjs]
  simp only [List.map_cons, List.map_nil]
  rw [ib_bA, ib_bB, cp_AB]

/-- C1 counterexample: in a state reachable through the public API (toggle
gravity off, spawn at `(10, 50)` and `(25, 50)` with zero velocity draws),
a `step` leaves a body with `x < radius`: the collision phase runs after the
boundary phase and pushes the left body out of bounds. -/
theorem C1_counterexample :
    ∃ b ∈ (update (runOps opsC1) 0).objects, b.x < b.radius := by
  rw [runOps_opsC1, update_wC1]
  refine ⟨{ bA with x := 7.5 }, by simp, ?_⟩
  simp only [bA]
  norm_num

lemma radius_integrateBody (w : World) (dt : ℝ) (b : Body) :
    (integrateBody w dt b).radius = b.radius := by
  simp only [integrateBody]
  split <;> rfl

lemma boundBody_contains (w : World) (c : Body)
    (hw : 2 * c.radius ≤ w.width) (hh : 2 * c.radius ≤ w.height) :
    (boundBody w c).radius ≤ (boundBody w c).x ∧
    (boundBody w c).x ≤ w.width - (boundBody w c).radius ∧
    (boundBody w c).radius ≤ (boundBody w c).y ∧
    (boundBody w c).y ≤ w.height - (boundBody w c).radius := by
  simp only [boundBody]
  split_ifs <;> refine ⟨?_, ?_, ?_, ?_⟩ <;> dsimp only at * <;> linarith

/-- C1 amended: the containment invariant holds after the integration and
boundary phase of `step` for every body whose diameter fits the canvas; the
subsequent collision phase can move a body back out of bounds (see the
counterexample), so it does not hold after a whole `step`. -/
theorem C1_boundary_phase (w : World) (dt : ℝ) (b : Body)
    (hw : 2 * b.radius ≤ w.width) (hh : 2 * b.radius ≤ w.height) :
    (boundBody w (integrateBody w dt b)).radius ≤ (boundBody w (integrateBody w dt b)).x ∧
    (boundBody w (integrateBody w dt b)).x ≤
      w.width - (boundBody w (integrateBody w dt b)).radius ∧
    (boundBody w (integrateBody w dt b)).radius ≤ (boundBody w (integrateBody w dt b)).y ∧
    (boundBody w (integrateBody w dt b)).y ≤
      w.height - (boundBody w (integrateBody w dt b)).radius := by
  have hr := radius_integrateBody w dt b
  exact boundBody_contains w (integrateBody w dt b) (by rw [hr]; exact hw) (by rw [hr]; exact hh)

/-- C1 amended witness: the sample body fits the 600x400 canvas, and after the
integration and boundary phase it is contained. -/
theorem C1_boundary_phase_witness :
    (boundBody wNoGravity (integrateBody wNoGravity 1 bSample)).radius ≤
      (boundBody wNoGravity (integrateBody wNoGravity 1 bSample)).x ∧
    (boundBody wNoGravity (integrateBody wNoGravity 1 bSample)).x ≤
      wNoGravity.width - (boundBody wNoGravity (integrateBody wNoGravity 1 bSample)).radius ∧
    (boundBody wNoGravity (integrateBody wNoGravity 1 bSample)).radius ≤
      (boundBody wNoGravity (integrateBody wNoGravity 1 bSample)).y ∧
    (boundBody wNoGravity (integrateBody wNoGravity 1 bSample)).y ≤
      wNoGravity.height - (boundBody wNoGravity (integrateBody wNoGravity 1 bSample)).radius :=
  C1_boundary_phase wNoGravity 1 bSample
    (by simp only [bSample, wNoGravity]; norm_num)
    (by simp only [bSample, wNoGravity]; norm_num)
